import Mathlib

/-!
Verification development for the agent-to-collector communication layer of
the New Relic Python agent (`newrelic/core/data_collector.py`).

The Python module is embedded shallowly:

* Decoded JSON values are the inductive `JVal`; Python tuples and lists both
  serialize to JSON arrays and are both modelled by `JVal.arr`.
* Python control flow by exception is modelled by the result type `PyResult`:
  a normal `return` is `ok`, each of the module's own network-interface
  exceptions (`DiscardDataForRequest`, `RetryDataForRequest`,
  `ServerIsUnavailable`, `ForceAgentRestart`, `ForceAgentDisconnect`) is its
  own constructor, and any other (unclassified) Python exception such as a
  `KeyError` or `AttributeError` escaping the function is `pyError`.
* The external world (the `json` codec, `zlib`, the `requests` transport, and
  the modules of this repository that are not part of the embedded file:
  `newrelic.core.config` and the process environment) is a record `Env` of
  pure functions; `send_request` additionally returns the list of
  `requests.post` calls it issued, so that claims about "no network call" are
  expressible.
* Logging is modelled from the spec as a pure diagnostic side channel that
  never raises and never affects control flow: the repository's logging setup
  (which supplies the `alert` level used by the forced-disconnect branch) is
  not part of the embedded file.  By contrast `zlib` is the standard library
  module imported directly by the embedded file, and it has no attribute
  `uncompress` (the real function is `zlib.decompress`), so the attribute
  lookup in the 415 debug branch is modelled as raising an `AttributeError`.
-/

namespace NewRelic

/-- Decoded JSON values (the `json` module's data model).  Python tuples and
lists both serialize as JSON arrays (`arr`). -/
inductive JVal where
  | null : JVal
  | bool : Bool → JVal
  | num : Int → JVal
  | str : String → JVal
  | arr : List JVal → JVal
  | obj : List (String × JVal) → JVal

/-- Python truthiness of a decoded JSON value (`if not server:`). -/
def JVal.truthy : JVal → Bool
  | .null => false
  | .bool b => b
  | .num n => n != 0
  | .str s => !s.isEmpty
  | .arr xs => !xs.isEmpty
  | .obj fs => !fs.isEmpty

mutual

/-- Python `repr()` of a decoded JSON value, as used by `%s`-formatting of
non-string values. -/
def JVal.pyRepr : JVal → String
  | .null => "None"
  | .bool b => bif b then "True" else "False"
  | .num n => toString n
  | .str s => "\x27" ++ s ++ "\x27"
  | .arr xs => "[" ++ JVal.pyReprList xs ++ "]"
  | .obj fs => "\x7b" ++ JVal.pyReprObj fs ++ "\x7d"

/-- Comma-joined `repr()`s of the elements of a list. -/
def JVal.pyReprList : List JVal → String
  | [] => ""
  | [x] => JVal.pyRepr x
  | x :: y :: xs => JVal.pyRepr x ++ ", " ++ JVal.pyReprList (y :: xs)

/-- Comma-joined `key: value` `repr()`s of the items of a dict. -/
def JVal.pyReprObj : List (String × JVal) → String
  | [] => ""
  | [(k, v)] => "\x27" ++ k ++ "\x27: " ++ JVal.pyRepr v
  | (k, v) :: f :: fs =>
      "\x27" ++ k ++ "\x27: " ++ JVal.pyRepr v ++ ", " ++ JVal.pyReprObj (f :: fs)

end

/-- Python `str()` of a decoded JSON value, as used by `'%s' % server` when
rebuilding the collector URL from a redirect host (in practice always a
string, per the protocol). -/
def JVal.pyStr : JVal → String
  | .str s => s
  | v => v.pyRepr

/-- Python truthiness of an optional string (`if not license_key:`): falsy
when the value is `None` or the empty string. -/
def truthyStr : Option String → Bool
  | none => false
  | some s => !s.isEmpty

/-- Python truthiness of an optional numeric setting (`if settings.port:`):
falsy when the value is `None` or `0`. -/
def truthyNat : Option Nat → Bool
  | none => false
  | some n => n != 0

/-- Result of running a function of the communications module.  `ok` is a
normal return; the next five constructors are the module's own
network-interface exceptions; `pyError` is any other Python exception
escaping the function (e.g. `KeyError`, `AttributeError`), which lies outside
the module's classification taxonomy. -/
inductive PyResult (α : Type) where
  | ok : α → PyResult α
  | discardData : String → PyResult α
  | retryData : String → PyResult α
  | serverUnavailable : PyResult α
  | forceRestart : String → PyResult α
  | forceDisconnect : String → PyResult α
  | pyError : String → PyResult α
  deriving Repr, DecidableEq

/-- The spec's closed outcome taxonomy (§3, §4.3). -/
inductive Outcome where
  | success : Outcome
  | retry : Outcome
  | discard : Outcome
  | restart : Outcome
  | disconnect : Outcome
  deriving Repr, DecidableEq

/-- Classification of a run of the module into the spec's outcome taxonomy.
`ServerIsUnavailable` subclasses `RetryDataForRequest`, hence `retry`.  An
unclassified Python exception is outside the taxonomy (`none`). -/
def outcomeOf : PyResult α → Option Outcome
  | .ok _ => some .success
  | .discardData _ => some .discard
  | .retryData _ => some .retry
  | .serverUnavailable => some .retry
  | .forceRestart _ => some .restart
  | .forceDisconnect _ => some .disconnect
  | .pyError _ => none

/-- Modelled from the spec: the `debug` sub-record of the global settings
object provided by `newrelic.core.config` (not part of the embedded file);
the spec lists a "log malformed payloads" debug flag. -/
structure DebugSettings where
  log_malformed_json_data : Bool
  deriving Repr, DecidableEq

/-- Modelled from the spec: the immutable configuration snapshot returned by
`newrelic.core.config.global_settings()` (not part of the embedded file) —
collector host/port, TLS flag, proxy host/port/credentials, license
credential and debug flags.  Optional fields are `none` when unset in
Python. -/
structure GlobalSettings where
  ssl : Bool
  host : String
  port : Option Nat
  proxy_host : Option String
  proxy_port : Option Nat
  proxy_user : Option String
  proxy_pass : Option String
  license_key : Option String
  debug : DebugSettings
  deriving Repr, DecidableEq

/-- `collector_url(server=None)`: the URL for talking to the data collector.
`server` is the decoded redirect-host value when one was supplied (Python
default `None` is `none`). -/
def collector_url (settings : GlobalSettings) (server : Option JVal) : String :=
  let scheme := if settings.ssl then "https" else "http"
  let serverStr :=
    match server with
    | some v =>
        if v.truthy then v.pyStr
        else if truthyNat settings.port then
          settings.host ++ ":" ++ toString (settings.port.getD 0)
        else settings.host
    | none =>
        if truthyNat settings.port then
          settings.host ++ ":" ++ toString (settings.port.getD 0)
        else settings.host
  scheme ++ "://" ++ serverStr ++ "/agent_listener/invoke_raw_method"

/-- `proxy_server()`: the proxy mapping handed to the `requests` library, as
a `(scheme, proxy)` pair, or `none` when proxy host or port is unset. -/
def proxy_server (settings : GlobalSettings) : Option (String × String) :=
  if !truthyStr settings.proxy_host || !truthyNat settings.proxy_port then
    none
  else
    let scheme := if settings.ssl then "https" else "http"
    let proxy := (settings.proxy_host.getD "") ++ ":"
        ++ toString (settings.proxy_port.getD 0)
    let proxy :=
      if settings.proxy_user.isSome && settings.proxy_pass.isSome then
        (settings.proxy_user.getD "") ++ ":" ++ (settings.proxy_pass.getD "")
            ++ "@" ++ proxy
      else proxy
    some (scheme, proxy)

/-- Serialized request bodies (Python byte strings), as a list of bytes. -/
abbrev Bytes := List Nat

/-- One call to `requests.post` as issued by `send_request`: the URL, the
query parameters (`method`, `license_key`, `protocol_version='9'`,
`marshal_format='json'`, optional `run_id`), the `Content-Encoding` header,
the proxy mapping, and the (possibly deflate-compressed) request body. -/
structure PostCall where
  url : String
  method : String
  license_key : String
  protocol_version : String
  marshal_format : String
  run_id : Option String
  content_encoding : String
  proxies : Option (String × String)
  data : Bytes
  deriving Repr, DecidableEq

/-- Result of one `requests.post` call: either a `RequestException` raised
before any response was received, or an HTTP response. -/
structure HttpResponse where
  status_code : Nat
  content : String
  deriving Repr, DecidableEq

/-- Outcome of the transport: `requestError` models `requests.RequestException`
(no response received), `response` a received HTTP response. -/
inductive PostOutcome where
  | requestError : String → PostOutcome
  | response : HttpResponse → PostOutcome

/-- The `exception` object of a decoded error response body, carrying
`error_type` and `message`. -/
structure BodyExc where
  error_type : String
  message : String

/-- A decoded JSON response body as inspected by `send_request`: whether the
key `return_value` is present (and its value), and whether the key
`exception` is present (and its object). -/
structure Decoded where
  return_value : Option JVal
  exception : Option BodyExc

/-- Modelled from the spec: the negotiated agent configuration produced by
`newrelic.core.config.create_settings_snapshot(server_config)` (not part of
the embedded file) — the local snapshot overlaid by the server response; the
server response supplies the new run id, read by
`ApplicationSession.__init__` as `configuration.agent_run_id`. -/
structure AgentConfig where
  agent_run_id : Option String
  server_config : JVal

/-- The external world of the communications module, as pure functions:
`json.dumps` (which may raise), `zlib.compress`, `requests.post`,
`json.loads` (which may raise), and — modelled from the spec because
`newrelic.core.config` and the process environment are not part of the
embedded file — `create_settings_snapshot`, `os.getpid`,
`socket.gethostname` and the agent `version` string. -/
structure Env where
  jsonDumps : JVal → Except String Bytes
  zlibCompress : Bytes → Nat → Bytes
  post : PostCall → PostOutcome
  jsonLoads : String → Except String Decoded
  create_settings_snapshot : JVal → Except String AgentConfig
  getpid : Int
  gethostname : String
  version : String

/-- `send_request(url, method, license_key, agent_run_id=None, payload=())`:
constructs and sends one request to the data collector.  Returns the
result (normal return value or raised exception, see `PyResult`) together
with the list of `requests.post` calls issued. -/
def send_request (env : Env) (settings : GlobalSettings)
    (url method : String) (license_key : Option String)
    (agent_run_id : Option String) (payload : JVal) :
    PyResult JVal × List PostCall :=
  -- Replace a missing or empty license key by the sentinel string.
  let license_key :=
    if truthyStr license_key then license_key.getD ""
    else "NO LICENSE KEY WAS SET IN AGENT CONFIGURATION"
  let run_id := if truthyStr agent_run_id then agent_run_id else none
  let proxies := proxy_server settings
  match env.jsonDumps payload with
  | .error exc =>
      -- json.dumps raised: log and raise DiscardDataForRequest(str(exc)),
      -- before any network call.
      (.discardData exc, [])
  | .ok data₀ =>
      -- Compress the serialized JSON if over 64KiB in size; level 1 below
      -- 2000000 bytes, level 9 at or above.
      let deflate := data₀.length > 64 * 1024
      let content_encoding := if deflate then "deflate" else "identity"
      let data :=
        if deflate then
          env.zlibCompress data₀ (if data₀.length < 2000000 then 1 else 9)
        else data₀
      let call : PostCall :=
        { url := url, method := method, license_key := license_key,
          protocol_version := "9", marshal_format := "json",
          run_id := run_id, content_encoding := content_encoding,
          proxies := proxies, data := data }
      -- Exactly one `requests.post` call is issued on every path below, so
      -- the issued-calls component is factored out of the branching.
      let result : PyResult JVal :=
        match env.post call with
        | .requestError exc => .retryData exc
        | .response r =>
            if r.status_code = 400 then
              .discardData ""
            else if r.status_code = 413 then
              .discardData ""
            else if r.status_code = 415 then
              -- In the debug branch the source calls `zlib.uncompress(data)`;
              -- the zlib module has no attribute `uncompress`, so the lookup
              -- raises AttributeError before DiscardDataForRequest is
              -- reached.
              if settings.debug.log_malformed_json_data
                  && content_encoding == "deflate" then
                .pyError "AttributeError: zlib has no attribute uncompress"
              else
                .discardData r.content
            else if r.status_code = 503 then
              .serverUnavailable
            else if r.status_code ≠ 200 then
              .discardData ""
            else
              match env.jsonLoads r.content with
              | .error exc => .discardData exc
              | .ok result =>
                  match result.return_value with
                  | some v => .ok v
                  | none =>
                      match result.exception with
                      | none =>
                          -- result['exception'] raises KeyError: neither
                          -- 'return_value' nor 'exception' is present.
                          .pyError "KeyError: exception"
                      | some e =>
                          if e.error_type
                              = "NewRelic::Agent::LicenseException"
                          then .discardData e.message
                          else if e.error_type
                              = "NewRelic::Agent::PostTooBigException"
                          then .discardData e.message
                          else if e.error_type
                              = "NewRelic::Agent::ForceRestartException"
                          then .forceRestart e.message
                          else if e.error_type
                              = "NewRelic::Agent::ForceDisconnectException"
                          then .forceDisconnect e.message
                          else .discardData e.message
      (result, [call])

/-- `ApplicationSession`: communication with the data collector once the
initial registration has been done.  `agent_run_id` is read off the
configuration snapshot by `__init__`. -/
structure ApplicationSession where
  collector_url : String
  license_key : Option String
  configuration : AgentConfig
  agent_run_id : Option String

/-- The session's run id as a JSON value, as it appears inside payload
tuples. -/
def ApplicationSession.run_id_val (s : ApplicationSession) : JVal :=
  match s.agent_run_id with
  | some r => .str r
  | none => .null

/-- `shutdown_session()`: orderly deregistration of the agent run.  The body
is a single `return send_request(...)` with the default empty payload — there
is no exception handling around it. -/
def ApplicationSession.shutdown_session (s : ApplicationSession) (env : Env)
    (settings : GlobalSettings) : PyResult JVal × List PostCall :=
  send_request env settings s.collector_url "shutdown" s.license_key
    s.agent_run_id (.arr [])

/-- `send_metric_data(start_time, end_time, metric_data)`: submits metric
data with payload `(agent_run_id, start_time, end_time, metric_data)`.  There
is no empty-input check. -/
def ApplicationSession.send_metric_data (s : ApplicationSession) (env : Env)
    (settings : GlobalSettings) (start_time end_time metric_data : JVal) :
    PyResult JVal × List PostCall :=
  send_request env settings s.collector_url "metric_data" s.license_key
    s.agent_run_id (.arr [s.run_id_val, start_time, end_time, metric_data])

/-- `send_errors(errors)`: submits errors with payload
`(agent_run_id, errors)`; returns `None` immediately when the list is
empty. -/
def ApplicationSession.send_errors (s : ApplicationSession) (env : Env)
    (settings : GlobalSettings) (errors : List JVal) :
    PyResult JVal × List PostCall :=
  if errors.isEmpty then (.ok .null, [])
  else
    send_request env settings s.collector_url "error_data" s.license_key
      s.agent_run_id (.arr [s.run_id_val, .arr errors])

/-- `send_transaction_traces(transaction_traces)`: submits transaction traces
with payload `(agent_run_id, transaction_traces)`; returns `None` immediately
when the list is empty. -/
def ApplicationSession.send_transaction_traces (s : ApplicationSession)
    (env : Env) (settings : GlobalSettings)
    (transaction_traces : List JVal) : PyResult JVal × List PostCall :=
  if transaction_traces.isEmpty then (.ok .null, [])
  else
    send_request env settings s.collector_url "transaction_sample_data"
      s.license_key s.agent_run_id
      (.arr [s.run_id_val, .arr transaction_traces])

/-- `send_sql_traces(sql_traces)`: submits SQL traces with the one-element
payload `(sql_traces,)` — the run id is not part of this payload; returns
`None` immediately when the list is empty. -/
def ApplicationSession.send_sql_traces (s : ApplicationSession) (env : Env)
    (settings : GlobalSettings) (sql_traces : List JVal) :
    PyResult JVal × List PostCall :=
  if sql_traces.isEmpty then (.ok .null, [])
  else
    send_request env settings s.collector_url "sql_trace_data" s.license_key
      s.agent_run_id (.arr [.arr sql_traces])

/-- The `local_config` dictionary built by `create_session` for the `connect`
call. -/
def connect_local_config (env : Env) (app_name : String)
    (linked_applications : List String) (environment agent_settings : JVal) :
    JVal :=
  let app_names := app_name :: linked_applications
  .obj [("pid", .num env.getpid),
        ("language", .str "python"),
        ("host", .str env.gethostname),
        ("app_name", .arr (app_names.map .str)),
        ("identifier", .str (String.intercalate "," app_names)),
        ("agent_version", .str env.version),
        ("environment", environment),
        ("settings", agent_settings)]

/-- `create_session(license_key, app_name, linked_applications, environment,
settings)`: registers the agent with the data collector via the two-call
handshake (`get_redirect_host` against the primary collector, then `connect`
against the redirected collector) and returns an `ApplicationSession` on
success.  The whole handshake body runs inside `try:` with an
`except NetworkInterfaceException:` handler and a bare `except:` handler,
both of which fall through to return `None`; so every raised outcome — the
module's own classified exceptions as well as any unclassified Python
exception — yields `none`. -/
def create_session (env : Env) (settings : GlobalSettings)
    (license_key : Option String) (app_name : String)
    (linked_applications : List String)
    (environment agent_settings : JVal) : Option ApplicationSession :=
  -- Fall back to the configuration-file license key when none was supplied
  -- (a still-missing key is only logged, not an error here).
  let license_key :=
    if truthyStr license_key then license_key else settings.license_key
  let url := collector_url settings none
  match (send_request env settings url "get_redirect_host" license_key
      none (.arr [])).1 with
  | .ok redirect_host =>
      let local_config := connect_local_config env app_name
          linked_applications environment agent_settings
      let payload : JVal := .arr [local_config]
      let url := collector_url settings (some redirect_host)
      match (send_request env settings url "connect" license_key none
          payload).1 with
      | .ok server_config =>
          match env.create_settings_snapshot server_config with
          | .ok application_config =>
              some { collector_url := url, license_key := license_key,
                     configuration := application_config,
                     agent_run_id := application_config.agent_run_id }
          | .error _ => none
      | _ => none
  | _ => none

/-! Concrete instances used to evaluate the embedding at specific inputs. -/

/-- An environment whose codec and transport are constant functions. -/
def constEnv (dumps : Except String Bytes) (po : PostOutcome)
    (loads : Except String Decoded) : Env where
  jsonDumps := fun _ => dumps
  zlibCompress := fun d _ => d
  post := fun _ => po
  jsonLoads := fun _ => loads
  create_settings_snapshot := fun v => .ok ⟨some "run", v⟩
  getpid := 4242
  gethostname := "apphost"
  version := "1.2.3"

/-- A concrete global-settings snapshot. -/
def testSettings : GlobalSettings where
  ssl := false
  host := "collector.newrelic.com"
  port := none
  proxy_host := none
  proxy_port := none
  proxy_user := none
  proxy_pass := none
  license_key := some "configured-key"
  debug := { log_malformed_json_data := false }

/-- A concrete application session. -/
def testSession : ApplicationSession where
  collector_url := "http://collector-1.newrelic.com/agent_listener/invoke_raw_method"
  license_key := some "abc"
  configuration := { agent_run_id := some "1234", server_config := .null }
  agent_run_id := some "1234"

/-! Helper lemmas about the calls issued by `send_request`. -/

/-- When serialization succeeds, `send_request` issues exactly one post
call, with the parameters, headers and body determined as in the source. -/
theorem send_request_post_call (env : Env) (settings : GlobalSettings)
    (url method : String) (license_key agent_run_id : Option String)
    (payload : JVal) (data : Bytes)
    (hdump : env.jsonDumps payload = .ok data) :
    (send_request env settings url method license_key agent_run_id
        payload).2 =
      [{ url := url, method := method,
         license_key :=
           if truthyStr license_key then license_key.getD ""
           else "NO LICENSE KEY WAS SET IN AGENT CONFIGURATION",
         protocol_version := "9", marshal_format := "json",
         run_id := if truthyStr agent_run_id then agent_run_id else none,
         content_encoding :=
           if data.length > 64 * 1024 then "deflate" else "identity",
         proxies := proxy_server settings,
         data :=
           if data.length > 64 * 1024 then
             env.zlibCompress data (if data.length < 2000000 then 1 else 9)
           else data }] := by
  simp only [send_request, hdump]

/-- Every call issued by `send_request` goes to the given URL with the given
method. -/
theorem send_request_call_fields (env : Env) (settings : GlobalSettings)
    (url method : String) (license_key agent_run_id : Option String)
    (payload : JVal) :
    ∀ c ∈ (send_request env settings url method license_key agent_run_id
        payload).2, c.url = url ∧ c.method = method := by
  intro c hc
  unfold send_request at hc
  rcases h : env.jsonDumps payload with exc | data <;> rw [h] at hc
  · simp at hc
  · simp only [List.mem_singleton] at hc
    subst hc
    exact ⟨rfl, rfl⟩

/-- C6: if serialization of the outbound payload raises, `send_request`
raises `DiscardDataForRequest` (outcome Discard) and issues no network call:
`requests.post` is never reached for that batch. -/
theorem send_request_encode_failure_discards_without_network (env : Env)
    (settings : GlobalSettings) (url method : String)
    (license_key agent_run_id : Option String) (payload : JVal)
    (exc : String) (hdump : env.jsonDumps payload = .error exc) :
    send_request env settings url method license_key agent_run_id payload
        = (.discardData exc, [])
      ∧ outcomeOf (send_request env settings url method license_key
          agent_run_id payload).1 = some .discard := by
  constructor
  · simp only [send_request, hdump]
  · simp only [send_request, hdump, outcomeOf]

/-- An environment whose `json.dumps` raises. -/
def encodeFailEnv : Env :=
  constEnv (.error "boom") (.response ⟨200, ""⟩) (.error "not reached")

/-- Witness for C6 at a concrete environment and payload. -/
theorem send_request_encode_failure_witness :
    encodeFailEnv.jsonDumps (.arr []) = .error "boom"
      ∧ (send_request encodeFailEnv testSettings "http://u" "metric_data"
            (some "k") none (.arr []) = (.discardData "boom", [])
          ∧ outcomeOf (send_request encodeFailEnv testSettings "http://u"
              "metric_data" (some "k") none (.arr [])).1 = some .discard) :=
  ⟨rfl, send_request_encode_failure_discards_without_network
    encodeFailEnv testSettings "http://u" "metric_data" (some "k") none
    (.arr []) "boom" rfl⟩

/-- C10: when the supplied license credential is missing or empty,
`send_request` still issues the network call (given the payload serializes),
substituting the sentinel string for the `license_key` URL parameter instead
of failing locally. -/
theorem send_request_missing_license_uses_sentinel (env : Env)
    (settings : GlobalSettings) (url method : String)
    (license_key agent_run_id : Option String) (payload : JVal)
    (data : Bytes) (hlk : truthyStr license_key = false)
    (hdump : env.jsonDumps payload = .ok data) :
    ∃ call, (send_request env settings url method license_key agent_run_id
        payload).2 = [call]
      ∧ call.license_key = "NO LICENSE KEY WAS SET IN AGENT CONFIGURATION" := by
  refine ⟨_, send_request_post_call env settings url method license_key
    agent_run_id payload data hdump, ?_⟩
  simp [hlk]

/-- An environment for which serialization and transport succeed. -/
def plainOkEnv : Env :=
  constEnv (.ok [1, 2, 3]) (.response ⟨200, "body"⟩) (.ok ⟨some .null, none⟩)

/-- Witness for C10 with a missing (`None`) license key. -/
theorem send_request_missing_license_witness :
    truthyStr none = false
      ∧ plainOkEnv.jsonDumps (.arr []) = .ok [1, 2, 3]
      ∧ ∃ call, (send_request plainOkEnv testSettings "http://u"
            "metric_data" none none (.arr [])).2 = [call]
          ∧ call.license_key
              = "NO LICENSE KEY WAS SET IN AGENT CONFIGURATION" :=
  ⟨rfl, rfl, send_request_missing_license_uses_sentinel plainOkEnv
    testSettings "http://u" "metric_data" none none (.arr []) [1, 2, 3]
    rfl rfl⟩

/-- C1: for every status-200 response whose decoded body carries an
exception object, `send_request` classifies the `error_type` exactly per the
table: `ForceRestartException` raises the Restart outcome,
`ForceDisconnectException` the Disconnect outcome, and every other
`error_type` — including `LicenseException` and `PostTooBigException` — the
Discard outcome. -/
theorem send_request_error_type_classification (env : Env)
    (settings : GlobalSettings) (url method : String)
    (license_key agent_run_id : Option String) (payload : JVal)
    (data : Bytes) (content error_type message : String)
    (hdump : env.jsonDumps payload = .ok data)
    (hpost : ∀ c, env.post c = .response ⟨200, content⟩)
    (hloads : env.jsonLoads content
        = .ok ⟨none, some ⟨error_type, message⟩⟩) :
    (send_request env settings url method license_key agent_run_id
          payload).1 =
        (if error_type = "NewRelic::Agent::ForceRestartException" then
          .forceRestart message
        else if error_type = "NewRelic::Agent::ForceDisconnectException" then
          .forceDisconnect message
        else .discardData message)
      ∧ outcomeOf (send_request env settings url method license_key
          agent_run_id payload).1 =
        some (if error_type = "NewRelic::Agent::ForceRestartException" then
            .restart
          else if error_type = "NewRelic::Agent::ForceDisconnectException"
          then .disconnect
          else .discard) := by
  have h : (send_request env settings url method license_key agent_run_id
      payload).1 =
      (if error_type = "NewRelic::Agent::ForceRestartException" then
        .forceRestart message
      else if error_type = "NewRelic::Agent::ForceDisconnectException" then
        .forceDisconnect message
      else .discardData message) := by
    simp only [send_request, hdump, hpost, hloads]
    split_ifs <;> simp_all
  refine ⟨h, ?_⟩
  rw [h]
  split_ifs <;> rfl

/-- An environment whose responses carry a forced-disconnect exception. -/
def disconnectEnv : Env :=
  constEnv (.ok [1]) (.response ⟨200, "excbody"⟩)
    (.ok ⟨none,
      some ⟨"NewRelic::Agent::ForceDisconnectException", "bye"⟩⟩)

/-- Witness for C1 at the forced-disconnect row of the table. -/
theorem send_request_error_type_classification_witness :
    disconnectEnv.jsonDumps (.arr []) = .ok [1]
      ∧ (∀ c, disconnectEnv.post c = .response ⟨200, "excbody"⟩)
      ∧ disconnectEnv.jsonLoads "excbody"
          = .ok ⟨none,
              some ⟨"NewRelic::Agent::ForceDisconnectException", "bye"⟩⟩
      ∧ ((send_request disconnectEnv testSettings "http://u" "metric_data"
            (some "k") (some "1") (.arr [])).1 =
          (if "NewRelic::Agent::ForceDisconnectException"
              = "NewRelic::Agent::ForceRestartException" then
            .forceRestart "bye"
          else if "NewRelic::Agent::ForceDisconnectException"
              = "NewRelic::Agent::ForceDisconnectException" then
            .forceDisconnect "bye"
          else .discardData "bye")
        ∧ outcomeOf (send_request disconnectEnv testSettings "http://u"
            "metric_data" (some "k") (some "1") (.arr [])).1 =
          some (if "NewRelic::Agent::ForceDisconnectException"
              = "NewRelic::Agent::ForceRestartException" then
              Outcome.restart
            else if "NewRelic::Agent::ForceDisconnectException"
                = "NewRelic::Agent::ForceDisconnectException" then
              Outcome.disconnect
            else Outcome.discard)) :=
  ⟨rfl, fun _ => rfl, rfl,
    send_request_error_type_classification disconnectEnv testSettings
      "http://u" "metric_data" (some "k") (some "1") (.arr []) [1]
      "excbody" "NewRelic::Agent::ForceDisconnectException" "bye"
      rfl (fun _ => rfl) rfl⟩

/-- C9: a status-200 response whose body decodes but contains neither
`return_value` nor `exception` makes `send_request` raise a raw `KeyError`,
an unclassified exception outside the Success/Retry/Discard/Restart/
Disconnect taxonomy — it does not yield Discard. -/
theorem send_request_missing_keys_raises_keyerror (env : Env)
    (settings : GlobalSettings) (url method : String)
    (license_key agent_run_id : Option String) (payload : JVal)
    (data : Bytes) (content : String)
    (hdump : env.jsonDumps payload = .ok data)
    (hpost : ∀ c, env.post c = .response ⟨200, content⟩)
    (hloads : env.jsonLoads content = .ok ⟨none, none⟩) :
    (send_request env settings url method license_key agent_run_id
          payload).1 = .pyError "KeyError: exception"
      ∧ outcomeOf (send_request env settings url method license_key
          agent_run_id payload).1 = none := by
  have h : (send_request env settings url method license_key agent_run_id
      payload).1 = .pyError "KeyError: exception" := by
    simp only [send_request, hdump, hpost, hloads]
    norm_num
  exact ⟨h, by rw [h]; rfl⟩

/-- An environment whose responses decode to a body with neither key. -/
def emptyBodyEnv : Env :=
  constEnv (.ok [1]) (.response ⟨200, "emptyobj"⟩) (.ok ⟨none, none⟩)

/-- Witness for C9 at a concrete environment. -/
theorem send_request_missing_keys_witness :
    emptyBodyEnv.jsonDumps (.arr []) = .ok [1]
      ∧ (∀ c, emptyBodyEnv.post c = .response ⟨200, "emptyobj"⟩)
      ∧ emptyBodyEnv.jsonLoads "emptyobj" = .ok ⟨none, none⟩
      ∧ ((send_request emptyBodyEnv testSettings "http://u" "metric_data"
            (some "k") (some "1") (.arr [])).1
              = .pyError "KeyError: exception"
          ∧ outcomeOf (send_request emptyBodyEnv testSettings "http://u"
              "metric_data" (some "k") (some "1") (.arr [])).1 = none) :=
  ⟨rfl, fun _ => rfl, rfl,
    send_request_missing_keys_raises_keyerror emptyBodyEnv testSettings
      "http://u" "metric_data" (some "k") (some "1") (.arr []) [1]
      "emptyobj" rfl (fun _ => rfl) rfl⟩

/-- An environment that serializes every payload to 64 KiB + 1 bytes (so the
body is deflate-compressed) and always responds 415. -/
def deflate415Env : Env :=
  constEnv (.ok (List.replicate 65537 0)) (.response ⟨415, "reject"⟩)
    (.error "not reached")

/-- Settings with the malformed-payload debug flag enabled. -/
def debugSettings : GlobalSettings :=
  { testSettings with debug := { log_malformed_json_data := true } }

/-- C2 (failing input): with the `log_malformed_json_data` debug flag
enabled and a deflate-compressed body, a 415 response does not yield
Discard — the source's `zlib.uncompress(data)` raises `AttributeError`
(the zlib module has no attribute `uncompress`; `zlib.decompress` was
intended), so an unclassified exception escapes instead of
`DiscardDataForRequest`. -/
theorem send_request_415_debug_deflate_attribute_error :
    (send_request deflate415Env debugSettings "http://u" "metric_data"
          (some "k") (some "1") (.arr [])).1
        = .pyError "AttributeError: zlib has no attribute uncompress"
      ∧ outcomeOf (send_request deflate415Env debugSettings "http://u"
          "metric_data" (some "k") (some "1") (.arr [])).1
        ≠ some .discard := by
  have h : (send_request deflate415Env debugSettings "http://u"
      "metric_data" (some "k") (some "1") (.arr [])).1
        = .pyError "AttributeError: zlib has no attribute uncompress" := by
    simp only [send_request, deflate415Env, debugSettings, testSettings,
      constEnv, List.length_replicate]
    norm_num
  exact ⟨h, by rw [h]; simp [outcomeOf]⟩

/-- C3 (amended): the compression policy is a function of the serialized
byte length, with the boundary excluded: at most 64 KiB (65536 bytes) the
body is sent uncompressed with `identity` encoding; strictly over 64 KiB it
is deflate-compressed, at level 1 (fast) when the serialized size is under
2,000,000 bytes and at level 9 (maximum) at or above. -/
theorem send_request_compression_policy (env : Env)
    (settings : GlobalSettings) (url method : String)
    (license_key agent_run_id : Option String) (payload : JVal)
    (data : Bytes) (hdump : env.jsonDumps payload = .ok data) :
    ∃ call, (send_request env settings url method license_key agent_run_id
        payload).2 = [call]
      ∧ (data.length ≤ 64 * 1024 →
          call.content_encoding = "identity" ∧ call.data = data)
      ∧ (64 * 1024 < data.length ∧ data.length < 2000000 →
          call.content_encoding = "deflate"
            ∧ call.data = env.zlibCompress data 1)
      ∧ (2000000 ≤ data.length →
          call.content_encoding = "deflate"
            ∧ call.data = env.zlibCompress data 9) := by
  refine ⟨_, send_request_post_call env settings url method license_key
    agent_run_id payload data hdump, ?_, ?_, ?_⟩
  · intro h
    have hn : ¬ (data.length > 64 * 1024) := by omega
    simp [hn]
  · rintro ⟨h₁, h₂⟩
    simp [h₁, h₂]
  · intro h
    have h₁ : data.length > 64 * 1024 := by omega
    have h₂ : ¬ (data.length < 2000000) := by omega
    simp [h₁, h₂]

/-- An environment that serializes every payload to exactly 64 KiB. -/
def boundary64KEnv : Env :=
  constEnv (.ok (List.replicate 65536 0)) (.response ⟨200, "okbody"⟩)
    (.ok ⟨some .null, none⟩)

/-- Counterexample to C3 as stated: a payload serializing to exactly 64 KiB
(65536 bytes = 64 * 1024, i.e. "at 64 KiB") is sent with `identity`
encoding, not deflate-compressed. -/
theorem send_request_compression_at_64KiB_counterexample :
    boundary64KEnv.jsonDumps (.arr []) = .ok (List.replicate 65536 0)
      ∧ (List.replicate 65536 (0 : Nat)).length = 64 * 1024
      ∧ (send_request boundary64KEnv testSettings "http://u" "metric_data"
            (some "k") none (.arr [])).2.map PostCall.content_encoding
          = ["identity"] := by
  refine ⟨rfl, by rw [List.length_replicate], ?_⟩
  rw [send_request_post_call boundary64KEnv testSettings "http://u"
    "metric_data" (some "k") none (.arr []) (List.replicate 65536 0) rfl]
  simp only [List.map_cons, List.map_nil, List.length_replicate]
  norm_num

/-- Witness for the amended C3, exercising the at-most-64-KiB branch. -/
theorem send_request_compression_policy_witness :
    boundary64KEnv.jsonDumps (.arr []) = .ok (List.replicate 65536 0)
      ∧ (send_request boundary64KEnv testSettings "http://u2" "metric_data"
            (some "k") none (.arr [])).2.map PostCall.content_encoding
          = ["identity"] := by
  obtain ⟨call, hcalls, hid, -, -⟩ :=
    send_request_compression_policy boundary64KEnv testSettings "http://u2"
      "metric_data" (some "k") none (.arr []) (List.replicate 65536 0) rfl
  refine ⟨rfl, ?_⟩
  rw [hcalls, List.map_singleton,
    (hid (by rw [List.length_replicate])).1]

/-- An environment that always responds 503 (collector unavailable). -/
def unavailableEnv : Env :=
  constEnv (.ok [1, 2]) (.response ⟨503, ""⟩) (.error "not reached")

/-- Counterexample to C4 as stated: on a 503 response the
`ServerIsUnavailable` raised by `send_request` propagates out of
`shutdown_session` — the failure (outcome Retry) is surfaced to the caller,
not swallowed; `shutdown_session` has no exception handling of its own. -/
theorem shutdown_session_surfaces_failure_counterexample :
    (testSession.shutdown_session unavailableEnv testSettings).1
        = .serverUnavailable
      ∧ outcomeOf (testSession.shutdown_session unavailableEnv
          testSettings).1 = some .retry := by
  constructor <;> rfl

/-- C4 (amended): `shutdown_session` always delegates to `send_request` with
method `shutdown` and the default empty payload against the session's
collector URL, and returns the underlying result unchanged — any failure of
the request propagates to the caller rather than being swallowed. -/
theorem shutdown_session_propagates_outcome (env : Env)
    (settings : GlobalSettings) (s : ApplicationSession) :
    s.shutdown_session env settings
        = send_request env settings s.collector_url "shutdown"
            s.license_key s.agent_run_id (.arr [])
      ∧ ((s.shutdown_session env settings).2.all
          fun c => c.method == "shutdown" && c.url == s.collector_url)
        = true := by
  refine ⟨rfl, ?_⟩
  show ((send_request env settings s.collector_url "shutdown" s.license_key
      s.agent_run_id (.arr [])).2.all _) = true
  rcases h : env.jsonDumps (.arr []) with exc | data
  · simp [send_request, h]
  · rw [send_request_post_call env settings s.collector_url "shutdown"
      s.license_key s.agent_run_id (.arr []) data h]
    simp

/-- C7: calling `send_errors`, `send_transaction_traces` or
`send_sql_traces` with an empty iterable issues zero network calls and
returns immediately (Python `None`); `send_metric_data` by contrast issues
its network call even when the metric data is empty. -/
theorem session_empty_iterables_no_network (env : Env)
    (settings : GlobalSettings) (s : ApplicationSession)
    (start_time end_time : JVal) (data : Bytes)
    (hdump : env.jsonDumps
        (.arr [s.run_id_val, start_time, end_time, .arr []]) = .ok data) :
    s.send_errors env settings [] = (.ok .null, [])
      ∧ s.send_transaction_traces env settings [] = (.ok .null, [])
      ∧ s.send_sql_traces env settings [] = (.ok .null, [])
      ∧ (s.send_metric_data env settings start_time end_time
          (.arr [])).2 ≠ [] := by
  refine ⟨rfl, rfl, rfl, ?_⟩
  show (send_request env settings s.collector_url "metric_data"
      s.license_key s.agent_run_id
      (.arr [s.run_id_val, start_time, end_time, .arr []])).2 ≠ []
  rw [send_request_post_call env settings s.collector_url "metric_data"
    s.license_key s.agent_run_id
    (.arr [s.run_id_val, start_time, end_time, .arr []]) data hdump]
  simp

/-- Witness for C7 at a concrete session and environment. -/
theorem session_empty_iterables_witness :
    plainOkEnv.jsonDumps
        (.arr [testSession.run_id_val, .num 1, .num 2, .arr []])
        = .ok [1, 2, 3]
      ∧ (testSession.send_errors plainOkEnv testSettings []
            = (.ok .null, [])
          ∧ testSession.send_transaction_traces plainOkEnv testSettings []
            = (.ok .null, [])
          ∧ testSession.send_sql_traces plainOkEnv testSettings []
            = (.ok .null, [])
          ∧ (testSession.send_metric_data plainOkEnv testSettings
              (.num 1) (.num 2) (.arr [])).2 ≠ []) :=
  ⟨rfl, session_empty_iterables_no_network plainOkEnv testSettings
    testSession (.num 1) (.num 2) [1, 2, 3] rfl⟩

/-- C8: for a non-empty list of SQL traces, `send_sql_traces` hands
`send_request` exactly the one-element payload tuple containing the trace
list; that payload is never the two-element `(runId, traces)` shape used by
the other send operations. -/
theorem send_sql_traces_payload_omits_run_id (env : Env)
    (settings : GlobalSettings) (s : ApplicationSession)
    (sql_traces : List JVal) (h : sql_traces ≠ []) :
    s.send_sql_traces env settings sql_traces
        = send_request env settings s.collector_url "sql_trace_data"
            s.license_key s.agent_run_id (.arr [.arr sql_traces])
      ∧ JVal.arr [.arr sql_traces]
          ≠ .arr [s.run_id_val, .arr sql_traces] := by
  constructor
  · rcases sql_traces with _ | ⟨t, ts⟩
    · exact absurd rfl h
    · rfl
  · intro he
    simp only [JVal.arr.injEq, List.cons.injEq] at he
    exact List.noConfusion he.2

/-- Witness for C8 with two concrete SQL traces. -/
theorem send_sql_traces_payload_witness :
    [JVal.str "t1", JVal.str "t2"] ≠ ([] : List JVal)
      ∧ (testSession.send_sql_traces plainOkEnv testSettings
            [.str "t1", .str "t2"]
          = send_request plainOkEnv testSettings testSession.collector_url
              "sql_trace_data" testSession.license_key
              testSession.agent_run_id
              (.arr [.arr [.str "t1", .str "t2"]])
        ∧ JVal.arr [.arr [.str "t1", .str "t2"]]
            ≠ .arr [testSession.run_id_val,
                .arr [.str "t1", .str "t2"]]) :=
  ⟨by simp, send_sql_traces_payload_omits_run_id plainOkEnv testSettings
    testSession [.str "t1", .str "t2"] (by simp)⟩

/-- The effective license key used by `create_session` after the
configuration-file fallback. -/
def session_license (settings : GlobalSettings)
    (license_key : Option String) : Option String :=
  if truthyStr license_key then license_key else settings.license_key

/-- The result of the first handshake call (`get_redirect_host` against the
primary collector). -/
def redirect_result (env : Env) (settings : GlobalSettings)
    (license_key : Option String) : PyResult JVal :=
  (send_request env settings (collector_url settings none)
    "get_redirect_host" (session_license settings license_key) none
    (.arr [])).1

/-- The result of the second handshake call (`connect` against the
redirected collector). -/
def connect_result (env : Env) (settings : GlobalSettings)
    (license_key : Option String) (app_name : String)
    (linked_applications : List String)
    (environment agent_settings redirect_host : JVal) : PyResult JVal :=
  (send_request env settings (collector_url settings (some redirect_host))
    "connect" (session_license settings license_key) none
    (.arr [connect_local_config env app_name linked_applications
      environment agent_settings])).1

/-- C5: the registration handshake never raises past its boundary: when
both calls return Success and the settings snapshot is built, a session
bound to the redirected collector is returned; on any non-Success outcome
of either call (classified or unclassified), and on a failing snapshot
(the unexpected-internal-error path), it returns `none` — the codomain of
`create_session` is `Option`, so no exception escapes. -/
theorem create_session_never_raises (env : Env) (settings : GlobalSettings)
    (license_key : Option String) (app_name : String)
    (linked_applications : List String)
    (environment agent_settings : JVal) :
    (∀ redirect_host,
      redirect_result env settings license_key = .ok redirect_host →
      (∀ server_config,
        connect_result env settings license_key app_name
            linked_applications environment agent_settings redirect_host
          = .ok server_config →
        (∀ cfg, env.create_settings_snapshot server_config = .ok cfg →
          create_session env settings license_key app_name
              linked_applications environment agent_settings
            = some { collector_url :=
                       collector_url settings (some redirect_host),
                     license_key := session_license settings license_key,
                     configuration := cfg,
                     agent_run_id := cfg.agent_run_id })
        ∧ (∀ e, env.create_settings_snapshot server_config = .error e →
            create_session env settings license_key app_name
                linked_applications environment agent_settings = none))
      ∧ ((∀ v, connect_result env settings license_key app_name
            linked_applications environment agent_settings redirect_host
              ≠ .ok v) →
          create_session env settings license_key app_name
              linked_applications environment agent_settings = none))
    ∧ ((∀ v, redirect_result env settings license_key ≠ .ok v) →
        create_session env settings license_key app_name
            linked_applications environment agent_settings = none) := by
  constructor
  · intro redirect_host h₁
    simp only [redirect_result, session_license] at h₁
    constructor
    · intro server_config h₂
      simp only [connect_result, session_license] at h₂
      constructor
      · intro cfg h₃
        simp only [create_session, session_license, h₁, h₂, h₃]
      · intro e h₃
        simp only [create_session, session_license, h₁, h₂, h₃]
    · intro hnok
      rcases h₂ : connect_result env settings license_key app_name
          linked_applications environment agent_settings redirect_host
        with v | m | m | _ | m | m | m
      · exact absurd h₂ (hnok v)
      all_goals
        simp only [connect_result, session_license] at h₂
        simp only [create_session, session_license, h₁, h₂]
  · intro hnok
    rcases h₁ : redirect_result env settings license_key
      with v | m | m | _ | m | m | m
    · exact absurd h₁ (hnok v)
    all_goals
      simp only [redirect_result, session_license] at h₁
      simp only [create_session, session_license, h₁]

/-- The server-side configuration object returned by the concrete
handshake environment below. -/
def serverCfgVal : JVal := .obj [("agent_run_id", .str "abc123")]

/-- An environment whose transport echoes the request method into the
response body, answering the redirect lookup with a secondary host and the
connect call with a server configuration. -/
def handshakeEnv : Env where
  jsonDumps := fun _ => .ok [1, 2]
  zlibCompress := fun d _ => d
  post := fun c => .response ⟨200, c.method⟩
  jsonLoads := fun content =>
    if content = "get_redirect_host" then
      .ok ⟨some (.str "collector-2.example.com"), none⟩
    else .ok ⟨some serverCfgVal, none⟩
  create_settings_snapshot := fun v => .ok ⟨some "abc123", v⟩
  getpid := 7
  gethostname := "apphost"
  version := "1.2.3"

/-- Witness for C5: a fully successful handshake at a concrete
environment, producing the session bound to the redirected collector. -/
theorem create_session_never_raises_witness :
    redirect_result handshakeEnv testSettings (some "key")
        = .ok (.str "collector-2.example.com")
      ∧ connect_result handshakeEnv testSettings (some "key") "app"
          ["linked"] .null .null (.str "collector-2.example.com")
        = .ok serverCfgVal
      ∧ handshakeEnv.create_settings_snapshot serverCfgVal
        = .ok ⟨some "abc123", serverCfgVal⟩
      ∧ create_session handshakeEnv testSettings (some "key") "app"
          ["linked"] .null .null
        = some { collector_url :=
                   collector_url testSettings
                     (some (.str "collector-2.example.com")),
                 license_key := some "key",
                 configuration := ⟨some "abc123", serverCfgVal⟩,
                 agent_run_id := some "abc123" } :=
  ⟨rfl, rfl, rfl,
    ((((create_session_never_raises handshakeEnv testSettings (some "key")
      "app" ["linked"] .null .null).1
        (.str "collector-2.example.com") rfl).1
        serverCfgVal rfl).1
        ⟨some "abc123", serverCfgVal⟩ rfl)⟩

end NewRelic
